import Mathlib

/-!
Verification of the network compliance workflow manager
(`plugins/modules/network_compliance_workflow_manager.py`).

The Python module is shallowly embedded: every remote API call is replaced by
an explicit input (the response the call would have produced), `fail_json`
and uncaught Python exceptions are modelled with `Except`, and Python dicts
(which preserve insertion order) are modelled as association lists.
-/

namespace NetCompliance

/-! ## Python-style string and dict primitives -/

/-- Lists-of-characters version of `String.startsWith`. -/
def charsStart : List Char → List Char → Bool
  | [], _ => true
  | _ :: _, [] => false
  | p :: ps, c :: cs => p = c && charsStart ps cs

/-- Substring containment on character lists (Python `pat in s`). -/
def charsIn (pat : List Char) : List Char → Bool
  | [] => charsStart pat []
  | c :: cs => charsStart pat (c :: cs) || charsIn pat cs

/-- Python's `pat in s` substring test on strings. -/
def pyIn (pat s : String) : Bool := charsIn pat.data s.data

/-- Python's `s.lower()`.  Structural recursion over the character list, so
that concrete runs reduce inside proofs (`String.toLower` recurses
well-foundedly over byte positions, which kernel reduction cannot unfold). -/
def pyLower (s : String) : String := ⟨s.data.map Char.toLower⟩

/-- Insertion-ordered string-to-string dict, as used for
`mgmt_ip_instance_id_map` (Python dicts preserve insertion order). -/
abbrev StrMap := List (String × String)

/-- Python `d[k] = v` on an insertion-ordered dict with unique keys. -/
def dictInsert : StrMap → String → String → StrMap
  | [], k, v => [(k, v)]
  | p :: rest, k, v => if p.1 = k then (k, v) :: rest else p :: dictInsert rest k v

/-- Python `d.get(k)`. -/
def dictLookup : StrMap → String → Option String
  | [], _ => none
  | p :: rest, k => if p.1 = k then some p.2 else dictLookup rest k

/-- Python `k in d`. -/
def dictContains (m : StrMap) (k : String) : Bool := m.any (fun p => p.1 = k)

/-! ## Device resolver (`get_device_ids_from_ip`, lines 504-554) -/

/-- One entry of the `get_device_list` response for a management IP. -/
structure DeviceInfo where
  id : String
  reachabilityStatus : String
deriving Repr, DecidableEq, Inhabited

/-- Outcome of the `get_device_list` call for one IP address:
either the response list (`response["response"]`), or a raised exception
(caught by the module and merely logged). -/
inductive LookupResult where
  | found (devices : List DeviceInfo)
  | apiError
deriving Repr, DecidableEq

/-- One iteration of the `for device_ip in ip_address_list` loop of
`get_device_ids_from_ip`.  An exception is logged and skipped; an empty
device list triggers `fail_json` (modelled as `.error`); otherwise every
reachable entry assigns `response[0]["id"]` to the map. -/
def device_ids_step (m : StrMap) (device_ip : String) : LookupResult → Except String StrMap
  | .apiError => .ok m
  | .found devices =>
    if devices.isEmpty then
      .error ("Unable to retrieve device information for " ++ device_ip ++
        ". Please ensure that the device exists and is reachable.")
    else
      .ok (devices.foldl
        (fun acc d =>
          if d.reachabilityStatus = "Reachable" then
            dictInsert acc device_ip (devices.headD default).id
          else acc) m)

/-- `get_device_ids_from_ip`: fold over the per-IP lookups, short-circuiting
on `fail_json`. -/
def get_device_ids_from_ip (lookups : List (String × LookupResult)) : Except String StrMap :=
  lookups.foldlM (fun m p => device_ids_step m p.1 p.2) []

/-- The empty-result guard of `get_want` (lines 747-752): an empty resolved
map is fatal. -/
def resolve_ip_targets (lookups : List (String × LookupResult)) : Except String StrMap :=
  match get_device_ids_from_ip lookups with
  | .error e => .error e
  | .ok m =>
    if m.isEmpty then
      .error "Failed to retrieve device IDs for the provided IP addresses or site name."
    else .ok m

/-! ## Site resolver (`site_exists`, `get_device_ids_from_site`, lines 458-611) -/

/-- One membership entry (`item["response"]` element of `get_membership`). -/
structure SiteDevice where
  managementIpAddress : String
  instanceUuid : String
  reachabilityStatus : String
deriving Repr, DecidableEq

/-- Inner loop over one membership item's device list.  A non-reachable
device raises while formatting the failure message (the code indexes the
outer `item` dict with a key it does not have); the exception is caught by
the enclosing handler, so iteration stops and the partial map survives.
The returned Bool records whether the exception was raised. -/
def site_inner (m : StrMap) : List SiteDevice → StrMap × Bool
  | [] => (m, false)
  | d :: rest =>
    if d.reachabilityStatus = "Reachable" then
      site_inner (dictInsert m d.managementIpAddress d.instanceUuid) rest
    else (m, true)

/-- Outer loop over the membership items; an exception in an inner loop
stops all iteration. -/
def site_outer (m : StrMap) : List (List SiteDevice) → StrMap
  | [] => m
  | item :: rest =>
    match site_inner m item with
    | (m', true) => m'
    | (m', false) => site_outer m' rest

/-- `get_device_ids_from_site`: collect reachable members, then fail if the
resulting map is empty. -/
def get_device_ids_from_site (site_name : String) (items : List (List SiteDevice)) :
    Except String StrMap :=
  let m := site_outer [] items
  if m.isEmpty then
    .error ("Site: " ++ site_name ++ " provided in the playbook does not have any reachable devices")
  else .ok m

/-- Outcome of the `get_site` API call inside `site_exists`. -/
inductive SiteLookup where
  | ok (site_id : String)
  | emptyResponse
  | exc
deriving Repr, DecidableEq

/-- `site_exists`: an exception is fatal; a falsy response leaves
`site_exists = False` with no id. -/
def site_exists (site_name : String) : SiteLookup → Except String (Bool × Option String)
  | .ok sid => .ok (true, some sid)
  | .emptyResponse => .ok (false, none)
  | .exc => .error ("Site " ++ site_name ++ " does not exist in the Cisco Catalyst Center")

/-- All remote responses needed by `get_device_id_list`. -/
structure ResolverEnv where
  siteLookup : SiteLookup
  membership : List (List SiteDevice)
  ipLookups : List (String × LookupResult)
deriving Repr

/-- `get_device_id_list` (lines 614-657).  Python truthiness: a site name is
supplied iff it is nonempty, an IP list iff it is a nonempty list.  When both
are supplied the site map and then the IP map are resolved, and the result is
the dict comprehension keeping IP-map pairs whose IP is a site-map key.
If `site_exists` returned False the comprehension raises `NameError`
(`site_mgmt_ip_instance_id_map` is unbound). -/
def get_device_id_list (ip_address_list : List String) (site_name : String)
    (env : ResolverEnv) : Except String StrMap :=
  if site_name ≠ "" ∧ ip_address_list ≠ [] then
    match site_exists site_name env.siteLookup with
    | .error e => .error e
    | .ok (se, _sid) =>
      if se then
        match get_device_ids_from_site site_name env.membership with
        | .error e => .error e
        | .ok siteMap =>
          match get_device_ids_from_ip env.ipLookups with
          | .error e => .error e
          | .ok ipMap => .ok (ipMap.filter (fun p => dictContains siteMap p.1))
      else
        match get_device_ids_from_ip env.ipLookups with
        | .error e => .error e
        | .ok _ => .error "NameError: name site_mgmt_ip_instance_id_map is not defined"
  else if site_name ≠ "" then
    match site_exists site_name env.siteLookup with
    | .error e => .error e
    | .ok (se, _sid) =>
      if se then get_device_ids_from_site site_name env.membership
      else .ok []
  else if ip_address_list ≠ [] then
    get_device_ids_from_ip env.ipLookups
  else .ok []

/-! ## Compliance detail translator (`modify_compliance_response`, lines 836-864) -/

/-- One record of the `get_compliance_detail` response; only the fields the
module reads are modelled. -/
structure ComplianceItem where
  deviceUuid : String
  status : String
deriving Repr, DecidableEq, Inhabited

/-- Python `next((ip for ip, uuid in map.items() if uuid == device_uuid))`:
the first map key whose value is the given UUID, `none` when the generator is
exhausted (in which case Python raises `StopIteration`). -/
def pyNext : StrMap → String → Option String
  | [], _ => none
  | p :: rest, uuid => if p.2 = uuid then some p.1 else pyNext rest uuid

/-- Per-IP groups of compliance records, in insertion order. -/
abbrev Grouped := List (String × List ComplianceItem)

/-- Python `modified_response.setdefault(ip, []).append(item)` pattern:
append the record to the group of `ip`, creating the group at the end when
absent. -/
def groupAppend : Grouped → String → ComplianceItem → Grouped
  | [], ip, item => [(ip, [item])]
  | p :: rest, ip, item =>
    if p.1 = ip then (p.1, p.2 ++ [item]) :: rest else p :: groupAppend rest ip item

/-- Python `modified_response.get(ip, [])` on the grouped result. -/
def groupLookup : Grouped → String → List ComplianceItem
  | [], _ => []
  | p :: rest, ip => if p.1 = ip then p.2 else groupLookup rest ip

/-- Main loop of `modify_compliance_response`; a record whose UUID is absent
from the map makes `next` raise `StopIteration` (modelled as `.error`);
a falsy (empty-string) IP is skipped. -/
def modify_go (m : StrMap) (acc : Grouped) : List ComplianceItem → Except String Grouped
  | [] => .ok acc
  | item :: rest =>
    match pyNext m item.deviceUuid with
    | none => .error "StopIteration"
    | some ip => modify_go m (if ip = "" then acc else groupAppend acc ip item) rest

/-- `modify_compliance_response`: group the raw records by the management IP
of their device UUID. -/
def modify_compliance_response (response : List ComplianceItem) (m : StrMap) :
    Except String Grouped :=
  modify_go m [] response

/-! ## Precondition evaluator (`is_sync_required`, lines 659-708) -/

/-- Status of the first record of one device's RUNNING_CONFIG group
(`compliance_type[0]["status"]`). -/
def firstStatus (records : List ComplianceItem) : String := (records.headD default).status

/-- `is_sync_required`: categorize each device by its first RUNNING_CONFIG
record's status and decide whether config sync is required. -/
def is_sync_required (modified_response : Grouped) (m : StrMap) : Bool × String :=
  let compliant := modified_response.filter (fun p => firstStatus p.2 == "COMPLIANT")
  let nonCompliant := modified_response.filter (fun p => firstStatus p.2 == "NON_COMPLIANT")
  if compliant.length = m.length then
    (false, "Device(s) are already compliant with the RUNNING_CONFIG compliance type. Therefore, Sync Device Configuration is not required.")
  else if nonCompliant.length ≠ m.length then
    (false, "The operation Sync Device Configuration cannot be performed on one or more of the devices because the status of the RUNNING_CONFIG compliance type is not as expected; it should be NON_COMPLIANT.")
  else (true, "")

/-! ## Result aggregation (`update_result`, `handle_error`, lines 987-1072) -/

/-- The module's mutable result record; `failed` is set sticky by
`update_result` and never cleared, `data` is only overwritten by a truthy
(nonempty) payload. -/
structure ModuleResult where
  status : String
  changed : Bool
  msg : String
  failed : Bool
  data : Option Grouped
deriving Repr, DecidableEq

/-- `update_result` (lines 987-1020): overwrite status, changed and msg; set
`failed` when the status is failed; attach `data` only when provided and
truthy. -/
def update_result (r : ModuleResult) (status : String) (changed : Bool) (msg : String)
    (data : Option Grouped) : ModuleResult :=
  { status := status
    changed := changed
    msg := msg
    failed := if status = "failed" then true else r.failed
    data := match data with
            | some d => if d.isEmpty then r.data else some d
            | none => r.data }

/-- Render an IP list the way the failure messages do. -/
def fmtIps (m : StrMap) : String := String.intercalate ", " (m.map (fun p => p.1))

/-- `handle_error` (lines 1050-1072): failed result whose message carries the
failure reason when one is present and truthy. -/
def handle_error (r : ModuleResult) (task_name : String) (m : StrMap)
    (failure_reason : Option String) : ModuleResult :=
  let msg :=
    if failure_reason.getD "" ≠ "" then
      "An error occurred while performing " ++ task_name ++ " on device(s): " ++ fmtIps m ++
        ". The operation failed due to the following reason: " ++ failure_reason.getD ""
    else
      "An error occurred while performing " ++ task_name ++ " on device(s): " ++ fmtIps m
  update_result r "failed" false msg none

/-! ## Compliance-scan poller (`get_compliance_task_status`, lines 1074-1130) -/

/-- A `get_task_by_id` response dict; `data` is the free-text partial data
(`""` models an absent or falsy field), `failureReason` may be missing. -/
structure TaskStatus where
  isError : Bool
  progress : String
  failureReason : Option String
  data : String
deriving Repr, DecidableEq

/-- Timeout message built by `exit_while_loop` (lines 1022-1048): it embeds
the response's partial data when that field is truthy. -/
def timeoutMsg (task_name task_id : String) (data : String) : String :=
  if data ≠ "" then
    "Task " ++ task_name ++ " with task id " ++ task_id ++
      " has not completed within the timeout period. Task Status: " ++ data ++ " "
  else
    "Task " ++ task_name ++ " with task id " ++ task_id ++
      " has not completed within the timeout period."

/-- `get_compliance_task_status`: one entry of the trace per poll iteration,
pairing the elapsed wall-clock seconds observed by the timeout check with the
status-query response (`none` models a falsy response).  The checks run in
source order: falsy response, timeout, error flag, success substring, failed
substring; otherwise the loop polls again.  On success the re-fetched
compliance `detail` is grouped and attached as data (`StopIteration` from the
grouping propagates). -/
def get_compliance_task_status (r : ModuleResult) (task_id : String) (m : StrMap)
    (detail : List ComplianceItem) :
    List (Nat × Option TaskStatus) → Except String ModuleResult
  | [] => .ok r
  | (elapsed, resp) :: rest =>
    match resp with
    | none =>
      .ok (update_result r "failed" false
        ("Error retrieving Task status for the Task Run Compliance Check with Task Id: " ++ task_id)
        none)
    | some resp =>
      if 360 < elapsed then
        .ok (update_result r "failed" false
          (timeoutMsg "Run Compliance Check" task_id resp.data) none)
      else if resp.isError then
        .ok (handle_error r "Run Compliance Check" m resp.failureReason)
      else if !resp.isError && pyIn "success" (pyLower resp.progress) then
        match modify_compliance_response detail m with
        | .error e => .error e
        | .ok modified =>
          .ok (update_result r "success" true
            ("Run Compliance Check has completed successfully on device(s): " ++ fmtIps m)
            (some modified))
      else if pyIn "failed" (pyLower resp.progress) then
        .ok (update_result r "failed" false
          ("Failed to Run Compliance Check on the following device(s): " ++ fmtIps m) none)
      else get_compliance_task_status r task_id m detail rest

/-! ## Config-sync poller (`get_sync_config_task_status`, lines 1132-1203) -/

/-- One node of the `get_task_tree` response list. -/
structure TreeItem where
  isError : Bool
  progress : String
deriving Repr, DecidableEq, Inhabited

/-- Python `set(...)` on a list of strings, modelled as first-occurrence
deduplication (the module only takes lengths and renders the set). -/
def pySet (l : List String) : List String :=
  l.foldl (fun acc x => if acc.contains x then acc else acc ++ [x]) []

/-- The device partition of the subtask scan: for every subtask entry
(everything after the tree root) and every (ip, device id) pair, an entry
whose progress contains the device id and the `=Success` marker appends the
IP to the success list, else the `=Failed` marker appends it to the failed
list. -/
def collectDevices (items : List TreeItem) (m : StrMap) : List String × List String :=
  items.foldl
    (fun acc item =>
      m.foldl
        (fun acc2 p =>
          if pyIn p.2 item.progress && pyIn "copy_Running_To_Startup=Success" item.progress then
            (acc2.1 ++ [p.1], acc2.2)
          else if pyIn p.2 item.progress && pyIn "copy_Running_To_Startup=Failed" item.progress then
            (acc2.1, acc2.2 ++ [p.1])
          else acc2)
        acc)
    ([], [])

/-- The AttributeError raised when the module calls `.get` on the task-tree
list (`exit_while_loop` and the error-flag branch both do). -/
def listGetAttributeError : String := "AttributeError: list object has no attribute get"

/-- `get_sync_config_task_status`: the response of each iteration is the task
tree (a Python list; `[]` models a falsy response).  The timeout branch and
the error-flag branch both call `.get(...)` on that list and therefore raise
`AttributeError` (modelled as `.error`).  Otherwise the devices are
partitioned by the per-device progress markers and the three terminal
conditions are checked in source order. -/
def get_sync_config_task_status (r : ModuleResult) (task_id : String) (m : StrMap) :
    List (Nat × List TreeItem) → Except String ModuleResult
  | [] => .ok r
  | (elapsed, resp) :: rest =>
    if resp.isEmpty then
      .ok (update_result r "failed" false
        ("Error retrieving Task Tree for the task_name Sync Device Configuration task_id " ++ task_id)
        none)
    else if 360 < elapsed then
      .error listGetAttributeError
    else if (resp.headD default).isError then
      .error listGetAttributeError
    else
      let collected := collectDevices (resp.drop 1) m
      let success_devices := pySet collected.1
      let failed_devices := pySet collected.2
      if success_devices.length = m.length then
        .ok (update_result r "success" true
          ("Sync Device Configuration has completed successfully on device(s): " ++
            String.intercalate ", " success_devices) none)
      else if failed_devices ≠ [] ∧ success_devices.length < m.length ∧
          failed_devices.length + success_devices.length = m.length then
        .ok (update_result r "failed" true
          ("Sync Device Configuration task has failed on device(s): " ++
            String.intercalate ", " failed_devices ++ " and succeeded on device(s): " ++
            String.intercalate ", " success_devices) none)
      else if failed_devices.length = m.length then
        .ok (update_result r "failed" false
          ("Sync Device Configuration task has failed on device(s): " ++
            String.intercalate ", " failed_devices) none)
      else get_sync_config_task_status r task_id m rest

/-! ## Orchestrator (`get_diff_merged`, lines 1205-1233, and `main`) -/

/-- Decidable equality on `Except`, so that concrete runs of the fallible
embedded functions can be checked by `decide`. -/
instance {ε α : Type} [DecidableEq ε] [DecidableEq α] : DecidableEq (Except ε α) := fun a b =>
  match a, b with
  | .error e, .error f =>
    if h : e = f then .isTrue (by rw [h]) else .isFalse (by simp [h])
  | .ok x, .ok y =>
    if h : x = y then .isTrue (by rw [h]) else .isFalse (by simp [h])
  | .error _, .ok _ => .isFalse (by simp)
  | .ok _, .error _ => .isFalse (by simp)

/-- Everything `get_diff_merged` consumes: which of the two actions the
desired state requests, the task id each dispatch call produced (`none` on
dispatch failure), and the poll traces and compliance detail the pollers
would observe. -/
structure DiffEnv where
  run_compliance_requested : Bool
  sync_requested : Bool
  run_compliance_task : Option String
  sync_task : Option String
  compliance_trace : List (Nat × Option TaskStatus)
  sync_trace : List (Nat × List TreeItem)
  detail : List ComplianceItem
  map : StrMap

/-- Modelled from the spec: `check_return_status` (defined in
`module_utils/dnac.py`, which is not under src/) aborts the module run with a
failed exit as soon as the tracked status is "failed", and otherwise lets
execution continue. -/
def check_return_status (r : ModuleResult) : Bool := r.status = "failed"

/-- Observable end state of one invocation: the module returned its result
via `exit_json` (`finished`), `check_return_status` aborted it via
`fail_json` (`exited`), or an uncaught Python exception escaped (`crashed`). -/
inductive DiffOutcome where
  | finished (r : ModuleResult)
  | exited (r : ModuleResult)
  | crashed (e : String)
deriving Repr, DecidableEq

/-- The dispatch-failure message of `get_diff_merged`. -/
def dispatchFailMsg (op : String) : String :=
  "An error occurred while retrieving the task_id of the " ++ op ++ " operation."

/-- Second half of the `get_diff_merged` action loop: the
`sync_device_config` action.  A missing task id records a failed result
without entering the poller; otherwise the poller runs and
`check_return_status` is applied to its outcome. -/
def run_action_sync (r : ModuleResult) (env : DiffEnv) : DiffOutcome :=
  if env.sync_requested then
    match env.sync_task with
    | none => .finished (update_result r "failed" false (dispatchFailMsg "sync_device_config") none)
    | some tid =>
      match get_sync_config_task_status r tid env.map env.sync_trace with
      | .error e => .crashed e
      | .ok r' => if check_return_status r' then .exited r' else .finished r'
  else .finished r

/-- `get_diff_merged`: process `run_compliance` then `sync_device_config`
(the action-map order).  A dispatch failure updates the result to failed and
falls through to the next action; a poller outcome goes through
`check_return_status`, which aborts the run when it is failed. -/
def get_diff_merged (env : DiffEnv) (r : ModuleResult) : DiffOutcome :=
  if env.run_compliance_requested then
    match env.run_compliance_task with
    | none =>
      run_action_sync (update_result r "failed" false (dispatchFailMsg "run_compliance") none) env
    | some tid =>
      match get_compliance_task_status r tid env.map env.detail env.compliance_trace with
      | .error e => .crashed e
      | .ok r' => if check_return_status r' then .exited r' else run_action_sync r' env
  else run_action_sync r env

/-- The `main` loop after `get_diff_merged`: one more `check_return_status`,
then `exit_json(**result)`. -/
def module_final_result (env : DiffEnv) (r : ModuleResult) : DiffOutcome :=
  match get_diff_merged env r with
  | .finished r' => if check_return_status r' then .exited r' else .finished r'
  | o => o

/-- Modelled from the spec: the initial OutcomeReport state before any action
outcome has been recorded (nothing changed, nothing failed; the concrete
initial strings live in `module_utils/dnac.py`, which is not under src/). -/
def initialResult : ModuleResult :=
  { status := "success", changed := false, msg := "", failed := false, data := none }

/-! ## Concrete scenario data -/

/-- Two-device target map used by the poller scenarios. -/
def map2 : StrMap := [("192.0.2.1", "uuid-a"), ("192.0.2.2", "uuid-b")]

/-- Task tree in which every target device carries the `=Failed` marker. -/
def allFailedTrace : List (Nat × List TreeItem) :=
  [(5, [⟨false, "CFS_root"⟩,
        ⟨false, "uuid-a Running config copy_Running_To_Startup=Failed"⟩,
        ⟨false, "uuid-b Running config copy_Running_To_Startup=Failed"⟩])]

/-- Task tree in which every target device carries the `=Success` marker. -/
def allSuccessTrace : List (Nat × List TreeItem) :=
  [(1, [⟨false, "CFS_root"⟩,
        ⟨false, "uuid-a Running config copy_Running_To_Startup=Success"⟩,
        ⟨false, "uuid-b Running config copy_Running_To_Startup=Success"⟩])]

/-- Invocation in which the `run_compliance` dispatch returns no task id and
the subsequently requested `sync_device_config` dispatches and succeeds. -/
def envC1 : DiffEnv :=
  { run_compliance_requested := true
    sync_requested := true
    run_compliance_task := none
    sync_task := some "T2"
    compliance_trace := []
    sync_trace := allSuccessTrace
    detail := []
    map := map2 }

/-- The result the C1 scenario ends in. -/
def r2C1 : ModuleResult :=
  { status := "success"
    changed := true
    msg := "Sync Device Configuration has completed successfully on device(s): 192.0.2.1, 192.0.2.2"
    failed := true
    data := none }

/-! ## Helper lemmas -/

theorem dictLookup_insert_self (m : StrMap) (k v : String) :
    dictLookup (dictInsert m k v) k = some v := by
  induction m with
  | nil => simp [dictInsert, dictLookup]
  | cons p rest ih =>
    by_cases h : p.1 = k
    · simp [dictInsert, dictLookup, h]
    · simp [dictInsert, dictLookup, h, ih]

theorem dictLookup_insert_other (m : StrMap) (k v k' : String) (h : k' ≠ k) :
    dictLookup (dictInsert m k v) k' = dictLookup m k' := by
  induction m with
  | nil => simp [dictInsert, dictLookup, Ne.symm h]
  | cons p rest ih =>
    by_cases hp : p.1 = k
    · simp [dictInsert, dictLookup, hp, Ne.symm h]
    · simp [dictInsert, dictLookup, hp, ih]

/-- The inner loop of `device_ids_step` maps `ip` to `v` as soon as some
device in the list is reachable, or when the accumulator already did. -/
theorem foldlInsert_lookup (ip v : String) (l : List DeviceInfo) (acc : StrMap)
    (h : (∃ d ∈ l, d.reachabilityStatus = "Reachable") ∨ dictLookup acc ip = some v) :
    dictLookup
      (l.foldl (fun acc d =>
        if d.reachabilityStatus = "Reachable" then dictInsert acc ip v else acc) acc) ip =
      some v := by
  induction l generalizing acc with
  | nil =>
    rcases h with ⟨d, hd, _⟩ | h
    · exact absurd hd (List.not_mem_nil d)
    · simpa using h
  | cons d rest ih =>
    by_cases hd : d.reachabilityStatus = "Reachable"
    · simpa [hd] using ih (dictInsert acc ip v) (Or.inr (dictLookup_insert_self acc ip v))
    · rcases h with ⟨d', hd', hr'⟩ | h
      · rcases List.mem_cons.mp hd' with rfl | hmem
        · exact absurd hr' hd
        · simpa [hd] using ih acc (Or.inl ⟨d', hmem, hr'⟩)
      · simpa [hd] using ih acc (Or.inr h)

/-- The inner loop of `device_ids_step` never touches keys other than `ip`. -/
theorem foldlInsert_lookup_other (ip v k : String) (hk : k ≠ ip) (l : List DeviceInfo)
    (acc : StrMap) :
    dictLookup
      (l.foldl (fun acc d =>
        if d.reachabilityStatus = "Reachable" then dictInsert acc ip v else acc) acc) k =
      dictLookup acc k := by
  induction l generalizing acc with
  | nil => rfl
  | cons d rest ih =>
    by_cases hd : d.reachabilityStatus = "Reachable"
    · simpa [hd] using (ih (dictInsert acc ip v)).trans (dictLookup_insert_other acc ip v k hk)
    · simpa [hd] using ih acc

/-- The inner loop of `device_ids_step` is the identity when no device is
reachable. -/
theorem foldlInsert_no_reach (ip v : String) (l : List DeviceInfo) (acc : StrMap)
    (h : ∀ d ∈ l, d.reachabilityStatus ≠ "Reachable") :
    l.foldl (fun acc d =>
      if d.reachabilityStatus = "Reachable" then dictInsert acc ip v else acc) acc = acc := by
  induction l generalizing acc with
  | nil => rfl
  | cons d rest ih =>
    have hd := h d (List.mem_cons_self d rest)
    simpa [hd] using ih acc (fun d' hd' => h d' (List.mem_cons_of_mem d hd'))

/-- `device_ids_step` succeeds whenever the lookup raised an exception or
returned a non-empty device list. -/
theorem device_ids_step_ok (m : StrMap) (ip : String) (r : LookupResult)
    (h : r = .apiError ∨ ∃ devs, r = .found devs ∧ devs ≠ []) :
    ∃ m', device_ids_step m ip r = .ok m' := by
  rcases h with rfl | ⟨devs, rfl, hne⟩
  · exact ⟨m, rfl⟩
  · refine ⟨devs.foldl
      (fun acc d =>
        if d.reachabilityStatus = "Reachable" then dictInsert acc ip (devs.headD default).id
        else acc) m, ?_⟩
    simp [device_ids_step, List.isEmpty_iff, hne]

/-- `device_ids_step` never touches the entry of a different IP address. -/
theorem device_ids_step_preserves_other (m m' : StrMap) (ip k : String) (r : LookupResult)
    (hk : k ≠ ip) (h : device_ids_step m ip r = .ok m') :
    dictLookup m' k = dictLookup m k := by
  cases r with
  | apiError => cases h; rfl
  | found devs =>
    by_cases hne : devs.isEmpty
    · simp [device_ids_step, hne] at h
    · simp only [device_ids_step, hne, Bool.false_eq_true, if_false, Except.ok.injEq] at h
      subst h
      exact foldlInsert_lookup_other ip (devs.headD default).id k hk devs m

/-- `device_ids_step` leaves the map untouched when the lookup raised an
exception or found no reachable device. -/
theorem device_ids_step_bad_self (m : StrMap) (ip : String) (r : LookupResult)
    (h : r = .apiError ∨
      ∃ devs, r = .found devs ∧ devs ≠ [] ∧ ∀ d ∈ devs, d.reachabilityStatus ≠ "Reachable") :
    device_ids_step m ip r = .ok m := by
  rcases h with rfl | ⟨devs, rfl, hne, hbad⟩
  · rfl
  · show (if devs.isEmpty then _ else _ : Except String StrMap) = .ok m
    rw [if_neg (by simp [List.isEmpty_iff, hne])]
    rw [foldlInsert_no_reach ip (devs.headD default).id devs m hbad]

/-- Accumulator-generalized run of the `get_device_ids_from_ip` loop: it
succeeds when no lookup found an empty device list, and an IP all of whose
lookups were exceptions or reachability misses keeps its old map entry. -/
theorem get_device_ids_from_ip_go (lookups : List (String × LookupResult)) (acc : StrMap)
    (hgood : ∀ p ∈ lookups, p.2 = .apiError ∨ ∃ devs, p.2 = .found devs ∧ devs ≠ []) :
    ∃ m, lookups.foldlM (fun m p => device_ids_step m p.1 p.2) acc = .ok m ∧
      ∀ ip, (∀ r, (ip, r) ∈ lookups →
          r = .apiError ∨ ∃ devs, r = .found devs ∧ ∀ d ∈ devs, d.reachabilityStatus ≠ "Reachable") →
        dictLookup m ip = dictLookup acc ip := by
  induction lookups generalizing acc with
  | nil => exact ⟨acc, rfl, fun ip _ => rfl⟩
  | cons q rest ih =>
    obtain ⟨acc₂, hstep⟩ :=
      device_ids_step_ok acc q.1 q.2 (hgood q (List.mem_cons_self q rest))
    obtain ⟨m, hrun, hlook⟩ :=
      ih acc₂ (fun p hp => hgood p (List.mem_cons_of_mem q hp))
    refine ⟨m, ?_, ?_⟩
    · simpa [List.foldlM, hstep, Bind.bind, Except.bind] using hrun
    · intro ip hbad
      have h1 : dictLookup m ip = dictLookup acc₂ ip :=
        hlook ip (fun r hr => hbad r (List.mem_cons_of_mem q hr))
      by_cases hip : ip = q.1
      · have hbadq : q.2 = .apiError ∨
            ∃ devs, q.2 = .found devs ∧ ∀ d ∈ devs, d.reachabilityStatus ≠ "Reachable" := by
          refine hbad q.2 ?_
          rw [hip]
          exact List.mem_cons_self (q.1, q.2) rest
        have hbadq' : q.2 = .apiError ∨
            ∃ devs, q.2 = .found devs ∧ devs ≠ [] ∧
              ∀ d ∈ devs, d.reachabilityStatus ≠ "Reachable" := by
          rcases hbadq with hq | ⟨devs, hq, hb⟩
          · exact Or.inl hq
          · refine Or.inr ⟨devs, hq, ?_, hb⟩
            rcases hgood q (List.mem_cons_self q rest) with hq' | ⟨devs', hq', hne'⟩
            · rw [hq] at hq'; cases hq'
            · rw [hq] at hq'
              cases hq'
              exact hne'
        have : device_ids_step acc q.1 q.2 = .ok acc :=
          device_ids_step_bad_self acc q.1 q.2 hbadq'
        rw [this] at hstep
        cases hstep
        exact h1
      · exact h1.trans (device_ids_step_preserves_other acc acc₂ q.1 ip q.2 hip hstep)

/-! ## Claim theorems -/

/-- C2: when both an IP address list and a site name are supplied and all
three remote lookups succeed, the resolved target map is exactly the IP-list
map restricted to the addresses present in the site-membership map
(intersection with IP-list precedence), never the union. -/
theorem c2_both_selectors_intersection (ips : List String) (site_name : String)
    (env : ResolverEnv) (sid : String) (siteMap ipMap : StrMap)
    (hsn : site_name ≠ "") (hips : ips ≠ [])
    (hsl : env.siteLookup = .ok sid)
    (hsite : get_device_ids_from_site site_name env.membership = .ok siteMap)
    (hip : get_device_ids_from_ip env.ipLookups = .ok ipMap) :
    get_device_id_list ips site_name env =
      .ok (ipMap.filter (fun p => dictContains siteMap p.1)) := by
  simp [get_device_id_list, hsn, hips, hsl, site_exists, hsite, hip]

/-- C10: when the inventory lookup of an IP address returns a non-empty
device list that contains at least one reachable entry, the resolver maps
that IP to the id of the FIRST entry of the list, whether or not the first
entry is the reachable one. -/
theorem c10_first_entry_id_used (ip : String) (devices : List DeviceInfo)
    (hne : devices ≠ [])
    (hreach : ∃ d ∈ devices, d.reachabilityStatus = "Reachable") :
    ∃ m, get_device_ids_from_ip [(ip, .found devices)] = .ok m ∧
      dictLookup m ip = some (devices.headD default).id := by
  refine ⟨devices.foldl
      (fun acc d =>
        if d.reachabilityStatus = "Reachable" then
          dictInsert acc ip (devices.headD default).id
        else acc) [], ?_, ?_⟩
  · simp [get_device_ids_from_ip, List.foldlM, device_ids_step, List.isEmpty_iff, hne,
      Bind.bind, Except.bind, Pure.pure, Except.pure]
  · exact foldlInsert_lookup ip (devices.headD default).id devices [] (Or.inl hreach)

/-- C1 counterexample: with `run_compliance` and `sync_device_config` both
requested, the `run_compliance` dispatch returning no task id and the sync
action succeeding, the module exits normally with `status = "success"` in its
result (only the sticky `failed` flag records the dispatch failure) — the
claim demands `status = "failed"`. -/
theorem c1_counterexample :
    module_final_result envC1 initialResult = .finished r2C1 ∧
    r2C1.status = "success" ∧ r2C1.failed = true ∧ r2C1.changed = true := by
  refine ⟨by decide, rfl, rfl, rfl⟩

/-- C5 counterexample: in IP-list-only resolution, an IP address whose device
lookup returns an empty device list (device not found) makes the module fail
immediately via `fail_json` — it is not silently dropped. -/
theorem c5_counterexample :
    get_device_ids_from_ip [("10.0.0.1", .found [])] =
      .error ("Unable to retrieve device information for 10.0.0.1. Please ensure that the device exists and is reachable.") := by
  decide

/-- C3: when every target device carries the `copy_Running_To_Startup=Failed`
marker, the config-sync poller reports the outcome through the
partial-failure branch: status failed but `changed = true`, with a message
listing the failed devices and an empty succeeded list.  The dedicated
all-failed branch (status failed, `changed = false`) is unreachable, contrary
to the claim. -/
theorem c3_all_failed_hits_mixed_branch :
    get_sync_config_task_status initialResult "T9" map2 allFailedTrace =
      .ok { status := "failed"
            changed := true
            msg := "Sync Device Configuration task has failed on device(s): 192.0.2.1, 192.0.2.2 and succeeded on device(s): "
            failed := true
            data := none } := by
  decide

/-- C4: in the config-sync poll loop a crossed 360-second timeout does not
produce a failed result: `exit_while_loop` calls `.get` on the task-tree
list, so the iteration raises `AttributeError` instead. -/
theorem c4_sync_timeout_attribute_error :
    get_sync_config_task_status initialResult "T9" map2 [(361, [⟨false, "in-progress"⟩])] =
      .error listGetAttributeError := by
  decide

/-- C6: in the config-sync poll loop a response whose first entry has
`isError = true` does not produce a failed result with the failure reason:
the code calls `.get("failureReason")` on the task-tree list, raising
`AttributeError`. -/
theorem c6_sync_is_error_attribute_error :
    get_sync_config_task_status initialResult "T9" map2 [(0, [⟨true, "x"⟩])] =
      .error listGetAttributeError := by
  decide

/-- C5 (amended): in IP-list-only resolution, when no lookup returns an
empty device list, the per-IP loop never fails: IP addresses whose lookups
raised an exception or found only non-reachable devices are silently dropped
(they end up absent from the map), and the invocation then fails exactly
when the overall resolved map is empty. -/
theorem c5_unreachable_dropped_amended (lookups : List (String × LookupResult))
    (hgood : ∀ p ∈ lookups, p.2 = .apiError ∨ ∃ devs, p.2 = .found devs ∧ devs ≠ []) :
    ∃ m, get_device_ids_from_ip lookups = .ok m ∧
      (∀ ip, (∀ r, (ip, r) ∈ lookups →
          r = .apiError ∨ ∃ devs, r = .found devs ∧ ∀ d ∈ devs, d.reachabilityStatus ≠ "Reachable") →
        dictLookup m ip = none) ∧
      (m = [] → resolve_ip_targets lookups =
        .error "Failed to retrieve device IDs for the provided IP addresses or site name.") ∧
      (m ≠ [] → resolve_ip_targets lookups = .ok m) := by
  obtain ⟨m, hrun, hlook⟩ := get_device_ids_from_ip_go lookups [] hgood
  refine ⟨m, hrun, fun ip hbad => hlook ip hbad, ?_, ?_⟩
  · intro hm
    subst hm
    simp [resolve_ip_targets, get_device_ids_from_ip, hrun]
  · intro hm
    simp [resolve_ip_targets, get_device_ids_from_ip, hrun, List.isEmpty_iff, hm]

/-- C7: with one RUNNING_CONFIG record group per target device, the
precondition evaluator refuses the sync when all devices are COMPLIANT,
refuses it with an explanatory message whenever the NON_COMPLIANT count does
not reach the full target count, and requires it exactly when every device is
NON_COMPLIANT. -/
theorem c7_sync_required_iff_all_noncompliant (resp : Grouped) (m : StrMap)
    (hne : m ≠ []) (hlen : resp.length = m.length) :
    ((∀ p ∈ resp, firstStatus p.2 = "COMPLIANT") →
      (is_sync_required resp m).1 = false) ∧
    ((resp.filter (fun p => firstStatus p.2 == "NON_COMPLIANT")).length ≠ m.length →
      (is_sync_required resp m).1 = false ∧ (is_sync_required resp m).2 ≠ "") ∧
    ((is_sync_required resp m).1 = true ↔
      ∀ p ∈ resp, firstStatus p.2 = "NON_COMPLIANT") := by
  refine ⟨?_, ?_, ?_, ?_⟩
  · intro hall
    have hfilter : resp.filter (fun p => firstStatus p.2 == "COMPLIANT") = resp :=
      List.filter_eq_self.mpr (fun p hp => by simp [hall p hp])
    simp [is_sync_required, hfilter, hlen]
  · intro hnc
    unfold is_sync_required
    by_cases hc : (resp.filter (fun p => firstStatus p.2 == "COMPLIANT")).length = m.length
    · simp [hc]
    · simp [hc, hnc]
  · intro h
    unfold is_sync_required at h
    by_cases hc : (resp.filter (fun p => firstStatus p.2 == "COMPLIANT")).length = m.length
    · simp [hc] at h
    · by_cases hn :
          (resp.filter (fun p => firstStatus p.2 == "NON_COMPLIANT")).length = m.length
      · intro p hp
        have hfl : (resp.filter (fun p => firstStatus p.2 == "NON_COMPLIANT")).length
            = resp.length := by omega
        simpa using List.filter_length_eq_length.mp hfl p hp
      · simp [hc, hn] at h
  · intro hall
    have hfilter : resp.filter (fun p => firstStatus p.2 == "NON_COMPLIANT") = resp :=
      List.filter_eq_self.mpr (fun p hp => by simp [hall p hp])
    have hcf : resp.filter (fun p => firstStatus p.2 == "COMPLIANT") = [] :=
      List.filter_eq_nil_iff.mpr (fun p hp => by simp [hall p hp])
    have hml : (0 : Nat) ≠ m.length := by
      intro h0
      exact hne (List.length_eq_zero.mp h0.symm)
    simp [is_sync_required, hfilter, hcf, hlen, hml]

/-- C8: in the compliance-scan poll loop, an iteration whose payload has
`isError = false` and whose progress text contains the substring "success"
(case-insensitively) terminates the loop with outcome SUCCESS and attaches
the re-fetched, per-IP grouped compliance detail as data; an iteration whose
progress contains "failed" (and no "success") terminates it with outcome
FAILED. -/
theorem c8_compliance_poll_success_and_failed (r : ModuleResult) (task_id : String)
    (m : StrMap) (detail : List ComplianceItem) (elapsed : Nat) (resp : TaskStatus)
    (rest : List (Nat × Option TaskStatus))
    (h360 : elapsed ≤ 360) (herr : resp.isError = false) :
    (∀ modified, pyIn "success" (pyLower resp.progress) = true →
      modify_compliance_response detail m = .ok modified → modified ≠ [] →
      ∃ r', get_compliance_task_status r task_id m detail ((elapsed, some resp) :: rest) = .ok r' ∧
        r'.status = "success" ∧ r'.changed = true ∧ r'.data = some modified) ∧
    (pyIn "success" (pyLower resp.progress) = false →
      pyIn "failed" (pyLower resp.progress) = true →
      ∃ r', get_compliance_task_status r task_id m detail ((elapsed, some resp) :: rest) = .ok r' ∧
        r'.status = "failed" ∧ r'.changed = false) := by
  have hlt : ¬ 360 < elapsed := by omega
  constructor
  · intro modified hsucc hmod hne
    refine ⟨update_result r "success" true
        ("Run Compliance Check has completed successfully on device(s): " ++ fmtIps m)
        (some modified), ?_, rfl, rfl, ?_⟩
    · simp [get_compliance_task_status, hlt, herr, hsucc, hmod]
    · simp [update_result, List.isEmpty_iff, hne]
  · intro hsucc hfail
    refine ⟨update_result r "failed" false
        ("Failed to Run Compliance Check on the following device(s): " ++ fmtIps m) none,
        ?_, rfl, rfl⟩
    simp [get_compliance_task_status, hlt, herr, hsucc, hfail]

/-- A successful `pyNext` result is a key of the map. -/
theorem pyNext_mem (m : StrMap) (uuid ip : String) (h : pyNext m uuid = some ip) :
    ∃ v, (ip, v) ∈ m := by
  induction m with
  | nil => simp [pyNext] at h
  | cons p rest ih =>
    by_cases hp : p.2 = uuid
    · have h1 : p.1 = ip := by simpa [pyNext, hp] using h
      exact ⟨p.2, by simp [← h1]⟩
    · simp only [pyNext, hp, if_false] at h
      obtain ⟨v, hv⟩ := ih (by simpa [hp] using h)
      exact ⟨v, List.mem_cons_of_mem p hv⟩

/-- `pyNext` finds a key when the UUID occurs among the map values. -/
theorem pyNext_isSome (m : StrMap) (uuid : String) (h : ∃ p ∈ m, p.2 = uuid) :
    ∃ ip, pyNext m uuid = some ip := by
  induction m with
  | nil =>
    obtain ⟨p, hp, _⟩ := h
    exact absurd hp (List.not_mem_nil p)
  | cons q rest ih =>
    by_cases hq : q.2 = uuid
    · exact ⟨q.1, by simp [pyNext, hq]⟩
    · obtain ⟨p, hp, hv⟩ := h
      rcases List.mem_cons.mp hp with rfl | hmem
      · exact absurd hv hq
      · obtain ⟨ip, hip⟩ := ih ⟨p, hmem, hv⟩
        exact ⟨ip, by simp [pyNext, hq, hip]⟩

/-- Appending one record to the group of an IP leaves every other group
unchanged and extends exactly that IP's group at the end. -/
theorem groupAppend_lookup (acc : Grouped) (ip₀ ip : String) (item : ComplianceItem) :
    groupLookup (groupAppend acc ip₀ item) ip =
      if ip = ip₀ then groupLookup acc ip ++ [item] else groupLookup acc ip := by
  induction acc with
  | nil =>
    by_cases hip : ip = ip₀
    · subst hip
      simp [groupAppend, groupLookup]
    · have hip' : ¬ ip₀ = ip := fun h => hip h.symm
      simp [groupAppend, groupLookup, hip, hip']
  | cons p rest ih =>
    by_cases h1 : p.1 = ip₀
    · by_cases h2 : ip = ip₀
      · subst h2
        simp [groupAppend, groupLookup, h1]
      · have h3 : ¬ p.1 = ip := fun h => h2 ((h ▸ h1 : ip = ip₀))
        have h2' : ¬ ip₀ = ip := fun h => h2 h.symm
        simp [groupAppend, groupLookup, h1, h2, h2', h3]
    · by_cases h3 : p.1 = ip
      · have h2 : ¬ ip = ip₀ := fun h => h1 (h3.trans h)
        simp [groupAppend, groupLookup, h1, h2, h3]
      · simp [groupAppend, groupLookup, h1, h3, ih]

/-- Accumulator-generalized run of the `modify_compliance_response` loop. -/
theorem modify_go_lookup (m : StrMap) (response : List ComplianceItem) (acc : Grouped)
    (h : ∀ item ∈ response, ∃ ip', pyNext m item.deviceUuid = some ip' ∧ ip' ≠ "") :
    ∃ out, modify_go m acc response = .ok out ∧
      ∀ ip, groupLookup out ip =
        groupLookup acc ip ++ response.filter (fun it => pyNext m it.deviceUuid == some ip) := by
  induction response generalizing acc with
  | nil => exact ⟨acc, rfl, by simp⟩
  | cons item rest ih =>
    obtain ⟨ip₀, hnext, hip₀⟩ := h item (List.mem_cons_self item rest)
    obtain ⟨out, hrun, hlook⟩ :=
      ih (groupAppend acc ip₀ item) (fun it hit => h it (List.mem_cons_of_mem item hit))
    refine ⟨out, ?_, ?_⟩
    · simpa [modify_go, hnext, hip₀] using hrun
    · intro ip
      rw [hlook ip, groupAppend_lookup]
      by_cases hip : ip = ip₀
      · subst hip
        simp [List.filter_cons, hnext, List.append_assoc]
      · have hip' : ¬ ip₀ = ip := fun h => hip h.symm
        simp [List.filter_cons, hnext, hip, hip']

/-- C9: when every record's device UUID occurs among the map values and no
management IP is the empty string, `modify_compliance_response` succeeds and
maps each IP address to exactly the input records whose UUID resolves (by
first match) to that IP, preserving source order — hence no record is
dropped. -/
theorem c9_modify_compliance_groups (response : List ComplianceItem) (m : StrMap)
    (hU : ∀ item ∈ response, ∃ p ∈ m, p.2 = item.deviceUuid)
    (hK : ∀ p ∈ m, p.1 ≠ "") :
    ∃ out, modify_compliance_response response m = .ok out ∧
      ∀ ip, groupLookup out ip =
        response.filter (fun it => pyNext m it.deviceUuid == some ip) := by
  have h : ∀ item ∈ response, ∃ ip', pyNext m item.deviceUuid = some ip' ∧ ip' ≠ "" := by
    intro item hitem
    obtain ⟨ip', hnext⟩ := pyNext_isSome m item.deviceUuid (hU item hitem)
    obtain ⟨v, hmem⟩ := pyNext_mem m item.deviceUuid ip' hnext
    exact ⟨ip', hnext, hK (ip', v) hmem⟩
  obtain ⟨out, hrun, hlook⟩ := modify_go_lookup m response [] h
  exact ⟨out, hrun, fun ip => by simpa using hlook ip⟩

/-- `update_result` never clears the sticky failed flag. -/
theorem update_result_failed_mono (r : ModuleResult) (s : String) (c : Bool) (msg : String)
    (d : Option Grouped) (h : r.failed = true) : (update_result r s c msg d).failed = true := by
  simp [update_result, h]

/-- The config-sync poller only produces results through `update_result`, so
it too never clears the sticky failed flag. -/
theorem sync_poll_failed_mono (tid : String) (m : StrMap) (r : ModuleResult)
    (hr : r.failed = true) :
    ∀ (trace : List (Nat × List TreeItem)) (r' : ModuleResult),
      get_sync_config_task_status r tid m trace = .ok r' → r'.failed = true := by
  intro trace
  induction trace with
  | nil =>
    intro r' h
    cases h
    exact hr
  | cons head rest ih =>
    obtain ⟨elapsed, resp⟩ := head
    intro r' h
    simp only [get_sync_config_task_status] at h
    repeat' split at h
    all_goals
      first
        | (simp only [Except.ok.injEq] at h
           exact h ▸ update_result_failed_mono r _ _ _ _ hr)
        | simp at h
        | exact ih r' h

/-- C1 (amended): when `run_compliance` is requested but its dispatch returns
no task id, that action is marked FAILED without its poll loop ever being
consulted (the final outcome does not depend on the compliance poll trace);
the run is not aborted, and a subsequently requested `sync_device_config`
whose poll ends in success overwrites the result status with "success", so
the module exits normally with `status = "success"` while only the sticky
`failed` flag still records the dispatch failure. -/
theorem c1_dispatch_failure_then_sync_success (env : DiffEnv) (r0 : ModuleResult)
    (t : String) (r2 : ModuleResult)
    (h1 : env.run_compliance_requested = true)
    (h2 : env.run_compliance_task = none)
    (h3 : env.sync_requested = true)
    (h4 : env.sync_task = some t)
    (h5 : get_sync_config_task_status
        (update_result r0 "failed" false (dispatchFailMsg "run_compliance") none)
        t env.map env.sync_trace = .ok r2)
    (h6 : r2.status = "success") :
    module_final_result env r0 = .finished r2 ∧ r2.failed = true ∧
      ∀ tr, module_final_result { env with compliance_trace := tr } r0 = .finished r2 := by
  have hr1 : (update_result r0 "failed" false (dispatchFailMsg "run_compliance") none).failed
      = true := by
    simp [update_result]
  have hf : r2.failed = true :=
    sync_poll_failed_mono t env.map _ hr1 env.sync_trace r2 h5
  refine ⟨?_, hf, fun tr => ?_⟩
  · simp [module_final_result, get_diff_merged, run_action_sync, check_return_status,
      h1, h2, h3, h4, h5, h6]
  · simp [module_final_result, get_diff_merged, run_action_sync, check_return_status,
      h1, h2, h3, h4, h5, h6]

/-! ## Witness data and witnesses -/

/-- Resolver environment of the C2 scenario: a two-address IP list and a site
whose membership contains only the first address. -/
def envC2 : ResolverEnv :=
  { siteLookup := .ok "site-1"
    membership := [[⟨"10.0.0.1", "site-uuid-1", "Reachable"⟩]]
    ipLookups := [("10.0.0.1", .found [⟨"uuid1", "Reachable"⟩]),
                  ("10.0.0.2", .found [⟨"uuid2", "Reachable"⟩])] }

theorem c2_witness :
    get_device_id_list ["10.0.0.1", "10.0.0.2"] "Global/USA" envC2 =
      .ok [("10.0.0.1", "uuid1")] :=
  c2_both_selectors_intersection ["10.0.0.1", "10.0.0.2"] "Global/USA" envC2 "site-1"
    [("10.0.0.1", "site-uuid-1")] [("10.0.0.1", "uuid1"), ("10.0.0.2", "uuid2")]
    (by decide) (by decide) rfl (by decide) (by decide)

/-- IP lookups with one reachable device, one unreachable device and one
lookup exception. -/
def lookupsC5 : List (String × LookupResult) :=
  [("10.0.0.1", .found [⟨"id1", "Reachable"⟩]),
   ("10.0.0.2", .found [⟨"id2", "Unreachable"⟩]),
   ("10.0.0.3", .apiError)]

theorem c5_witness :
    resolve_ip_targets lookupsC5 = .ok [("10.0.0.1", "id1")] ∧
    dictLookup [("10.0.0.1", "id1")] "10.0.0.2" = none := by
  obtain ⟨m, h1, h2, _h3, h4⟩ := c5_unreachable_dropped_amended lookupsC5 (by
    intro p hp
    simp only [lookupsC5, List.mem_cons, List.not_mem_nil, or_false] at hp
    rcases hp with rfl | rfl | rfl
    · exact Or.inr ⟨[⟨"id1", "Reachable"⟩], rfl, by decide⟩
    · exact Or.inr ⟨[⟨"id2", "Unreachable"⟩], rfl, by decide⟩
    · exact Or.inl rfl)
  have hm : m = [("10.0.0.1", "id1")] :=
    Except.ok.inj (h1.symm.trans (by decide))
  subst hm
  refine ⟨h4 (by decide), ?_⟩
  refine h2 "10.0.0.2" ?_
  intro r hr
  simp only [lookupsC5, List.mem_cons, List.not_mem_nil, or_false, Prod.mk.injEq] at hr
  rcases hr with ⟨h, _⟩ | ⟨_, rfl⟩ | ⟨h, _⟩
  · exact absurd h (by decide)
  · exact Or.inr ⟨[⟨"id2", "Unreachable"⟩], rfl, by decide⟩
  · exact absurd h (by decide)

/-- Three-device target set for the precondition evaluator. -/
def mapC7 : StrMap := [("a", "u1"), ("b", "u2"), ("c", "u3")]

/-- RUNNING_CONFIG groups in which every device is NON_COMPLIANT. -/
def respNC3 : Grouped :=
  [("a", [⟨"u1", "NON_COMPLIANT"⟩]), ("b", [⟨"u2", "NON_COMPLIANT"⟩]),
   ("c", [⟨"u3", "NON_COMPLIANT"⟩])]

theorem c7_witness : (is_sync_required respNC3 mapC7).1 = true :=
  (c7_sync_required_iff_all_noncompliant respNC3 mapC7 (by decide) (by decide)).2.2.mpr
    (by decide)

/-- Re-fetched compliance detail of the C8 scenario. -/
def detailC8 : List ComplianceItem := [⟨"uuid-a", "COMPLIANT"⟩]

/-- Its per-IP grouping under `map2`. -/
def modifiedC8 : Grouped := [("192.0.2.1", [⟨"uuid-a", "COMPLIANT"⟩])]

/-- A poll payload whose progress carries a localized success marker. -/
def respSuccC8 : TaskStatus := ⟨false, "Compliance Check Successfull", none, ""⟩

/-- A poll payload whose progress carries a failure marker. -/
def respFailC8 : TaskStatus := ⟨false, "Task Failed", none, ""⟩

theorem c8_witness :
    (∃ r', get_compliance_task_status initialResult "T1" map2 detailC8
        [(2, some respSuccC8)] = .ok r' ∧ r'.status = "success" ∧ r'.changed = true ∧
        r'.data = some modifiedC8) ∧
    (∃ r', get_compliance_task_status initialResult "T1" map2 detailC8
        [(3, some respFailC8)] = .ok r' ∧ r'.status = "failed" ∧ r'.changed = false) := by
  constructor
  · exact (c8_compliance_poll_success_and_failed initialResult "T1" map2 detailC8 2 respSuccC8
      [] (by decide) rfl).1 modifiedC8 (by decide) (by decide) (by decide)
  · exact (c8_compliance_poll_success_and_failed initialResult "T1" map2 detailC8 3 respFailC8
      [] (by decide) rfl).2 (by decide) (by decide)

/-- Raw compliance records with two devices interleaved. -/
def respC9 : List ComplianceItem :=
  [⟨"uuid-a", "COMPLIANT"⟩, ⟨"uuid-b", "NON_COMPLIANT"⟩, ⟨"uuid-a", "OTHER"⟩]

theorem c9_witness :
    ∃ out, modify_compliance_response respC9 map2 = .ok out ∧
      groupLookup out "192.0.2.1" =
        [{ deviceUuid := "uuid-a", status := "COMPLIANT" },
         { deviceUuid := "uuid-a", status := "OTHER" }] := by
  obtain ⟨out, h1, h2⟩ := c9_modify_compliance_groups respC9 map2 (by decide) (by decide)
  exact ⟨out, h1, (h2 "192.0.2.1").trans (by decide)⟩

/-- Device list whose first entry is unreachable and second is reachable. -/
def devsC10 : List DeviceInfo :=
  [⟨"first-id", "Unreachable"⟩, ⟨"second-id", "Reachable"⟩]

theorem c10_witness :
    ∃ m, get_device_ids_from_ip [("10.1.1.1", .found devsC10)] = .ok m ∧
      dictLookup m "10.1.1.1" = some "first-id" :=
  c10_first_entry_id_used "10.1.1.1" devsC10 (by decide) (by decide)

theorem c1_witness :
    module_final_result envC1 initialResult = .finished r2C1 ∧ r2C1.failed = true :=
  ⟨(c1_dispatch_failure_then_sync_success envC1 initialResult "T2" r2C1
      rfl rfl rfl rfl (by decide) rfl).1,
   (c1_dispatch_failure_then_sync_success envC1 initialResult "T2" r2C1
      rfl rfl rfl rfl (by decide) rfl).2.1⟩

end NetCompliance
